import Mathlib

/-!
# Confluence input plugin: session client and gather cycle

A shallow embedding of `plugins/inputs/confluence/client.go` and
`plugins/inputs/confluence/confluence.go`.

Stateful Go code is written in explicit state-passing style.  Everything the
package obtains from outside itself (URL parsing, the HTTP round trip, JSON
decoding, TLS configuration, the scheduler's choice in a `select` with two
ready cases) is a field of `Env`, so every theorem quantifies over all
behaviours of those collaborators.
-/

namespace confluence

/-! ## Data model -/

/-- An error value produced outside this package
(`net/url`, `net/http`, `context`, `encoding/json`, `fmt.Errorf`). -/
structure StdError where
  msg : String
deriving DecidableEq

/-- Go `type APIError struct` (client.go:112). -/
structure APIError where
  URL : String
  StatusCode : Int
  Title : String
  Description : String
deriving DecidableEq

/-- Go `func (e APIError) Error() string` (client.go:119). -/
def APIError.Error (e : APIError) : String :=
  if e.Description ≠ "" then
    "[" ++ e.URL ++ "] " ++ e.Title ++ ": " ++ e.Description
  else
    "[" ++ e.URL ++ "] " ++ e.Title

/-- A Go `error` value as seen by callers of this package: either the package's
own `APIError`, or an error made elsewhere and passed through unmodified. -/
inductive Error where
  | api (e : APIError)
  | std (e : StdError)
deriving DecidableEq

/-- Go `http.Cookie`, reduced to the fields the package reads. -/
structure Cookie where
  Name : String
  Value : String
deriving DecidableEq

/-- Go `context.Context`: `Err` is the value of `ctx.Err()`; the `Done` channel is
closed exactly when it is not nil. -/
structure Context where
  Err : Option StdError
deriving DecidableEq

/-- Go `context.Background()`: never cancelled. -/
def Context.Background : Context := ⟨none⟩

/-- Go `url.URL`, reduced to what `Hostname()` and `Port()` return. -/
structure URL where
  Hostname : String
  Port : String
deriving DecidableEq

/-- Go `http.Request`.  `BasicAuth` stands for the `Authorization` header written
by `SetBasicAuth`, `Cookies` for the `Cookie` header written by `AddCookie` (its
`name=value` pairs, in order, as they stand in the header), `Header` for the
entries added with `Header.Add`. -/
structure Request where
  Method : String
  URL : String
  BasicAuth : Option (String × String)
  Cookies : List Cookie
  Header : List (String × String)
  ctx : Context
deriving DecidableEq

/-- Go `req.SetBasicAuth(username, password)`. -/
def Request.SetBasicAuth (req : Request) (username password : String) : Request :=
  { req with BasicAuth := some (username, password) }

/-- Go `req.Header.Add(key, value)`. -/
def Request.HeaderAdd (req : Request) (key value : String) : Request :=
  { req with Header := req.Header ++ [(key, value)] }

/-- Go `req.WithContext(ctx)`. -/
def Request.WithContext (req : Request) (ctx : Context) : Request :=
  { req with ctx := ctx }

/-- Go `http.Response`: `Cookies` is what `res.Cookies()` returns, `Body` the bytes
of the body. -/
structure Response where
  StatusCode : Int
  Status : String
  Cookies : List Cookie
  Body : String
deriving DecidableEq

/-- Go `http.StatusUnauthorized`. -/
def StatusUnauthorized : Int := 401

/-- Go `http.StatusNoContent`. -/
def StatusNoContent : Int := 204

/-- A `chan struct{}`: `len` elements buffered out of `cap`. -/
structure Chan where
  len : Nat
  cap : Nat
deriving DecidableEq

/-- Go `make(chan struct{}, n)`; `make` panics on a negative size. -/
def Chan.make (n : Int) : Option Chan :=
  if n < 0 then none else some ⟨0, n.toNat⟩

/-- Whether a send `ch <- struct{}{}` can proceed without a waiting receiver. -/
def Chan.canSend (ch : Chan) : Bool := decide (ch.len < ch.cap)

/-- The channel after a send that proceeded. -/
def Chan.send (ch : Chan) : Chan := { ch with len := ch.len + 1 }

/-- A receive `<-ch`: `none` when the buffer is empty (the receive would block). -/
def Chan.recv (ch : Chan) : Option Chan :=
  if ch.len = 0 then none else some { ch with len := ch.len - 1 }

/-- Go `type spaceLinks struct` (confluence.go:123). -/
structure spaceLinks where
  WebUI : String
  Self : String
deriving DecidableEq

/-- Go `type spaceExpandable struct` (confluence.go:128). -/
structure spaceExpandable where
  Metadata : String
  Icon : String
  Description : String
  Homepage : String
deriving DecidableEq

/-- Go `type space struct` (confluence.go:114); `Type_` is the field `Type`. -/
structure space where
  Id : Int
  Key : String
  Name : String
  Type_ : String
  Links : spaceLinks
  Expandable : spaceExpandable
deriving DecidableEq

/-- Go `type spaceResponse struct` (confluence.go:135). -/
structure spaceResponse where
  Results : List space
deriving DecidableEq

/-- Go `new(spaceResponse)`: the zero value. -/
def spaceResponse.new : spaceResponse := ⟨[]⟩

/-- Go `type client struct` (client.go:11).  The `httpClient` field is the
transport of `Env`. -/
structure client where
  baseURL : String
  username : String
  password : String
  sessionCookie : Option Cookie
  semaphore : Chan
deriving DecidableEq

/-- What the package's collaborators do.
* `urlParse` is `url.Parse`, which `http.NewRequest` also runs on its URL;
* `roundTrip k req` is what `httpClient.Do(req)` returns when it is the call
  number `k` (from 0) made through the transport;
* `jsonDecode body v` is `json.NewDecoder(body).Decode(&v)`: the target after
  the call and the error, if any;
* `tlsConfig` is the error of `ClientConfig.TLSConfig()`, if any;
* `sanitizeCookieName` and `sanitizeCookieValue` are the functions of `net/http`
  through which `AddCookie` passes the name and the value of a cookie before
  writing them to the `Cookie` header;
* `selectSend` is the runtime's choice in a `select` whose two cases are both
  ready: `true` picks the send on the semaphore, `false` picks `ctx.Done()`. -/
structure Env where
  urlParse : String → Except StdError URL
  roundTrip : Nat → Request → Except StdError Response
  jsonDecode : String → spaceResponse → spaceResponse × Option StdError
  tlsConfig : Option StdError
  sanitizeCookieName : String → String
  sanitizeCookieValue : String → String
  selectSend : Bool

/-- The `name=value` pair that `AddCookie` writes for a cookie: the sanitised
name and the sanitised value. -/
def Env.sanitizeCookie (env : Env) (ck : Cookie) : Cookie :=
  ⟨env.sanitizeCookieName ck.Name, env.sanitizeCookieValue ck.Value⟩

/-- Go `req.AddCookie(c)`: the sanitised `name=value` pair is written to the
`Cookie` header, after the pairs already there. -/
def Request.AddCookie (env : Env) (req : Request) (ck : Cookie) : Request :=
  { req with Cookies := req.Cookies ++ [env.sanitizeCookie ck] }

/-- Observable effects, kept as a log next to the program state.
`calls` are the requests handed to `httpClient.Do`, oldest first; `sends` and
`recvs` count completed sends to and receives from a client semaphore;
`closes` counts `res.Body.Close()`. -/
structure World where
  calls : List Request
  sends : Nat
  recvs : Nat
  closes : Nat
deriving DecidableEq

/-- The empty log. -/
def World.empty : World := ⟨[], 0, 0, 0⟩

/-- How a call ends: it returns `r` in state `s`, it waits forever on a channel
operation that cannot proceed, or the runtime panics. -/
inductive Res (ρ σ : Type) where
  | returned (r : ρ) (s : σ)
  | blocked
  | panicked
deriving DecidableEq

/-! ## client.go -/

/-- Go `strings.Contains(s, substr)`. -/
def stringsContains (s substr : String) : Bool :=
  s.data.tails.any (fun t => substr.data.isPrefixOf t)

/-- Go `http.NewRequest(method, url, nil)` for a valid method: fails exactly when
`url.Parse` fails, and otherwise carries the background context. -/
def NewRequest (env : Env) (method url : String) : Except StdError Request :=
  match env.urlParse url with
  | .error err => .error err
  | .ok _ => .ok ⟨method, url, none, [], [], Context.Background⟩

/-- Go `func newClient` (client.go:20); `none` is the panic of `make`. -/
def newClient (url username password : String) (maxConnections : Int) : Option client :=
  match Chan.make maxConnections with
  | none => none
  | some sem => some
      { baseURL := url
        username := username
        password := password
        sessionCookie := none
        semaphore := sem }

/-- Go `func createGetRequest` (client.go:126). -/
def createGetRequest (env : Env) (url username password : String)
    (sessionCookie : Option Cookie) : Except StdError Request :=
  match NewRequest env "GET" url with
  | .error err => .error err
  | .ok req =>
    let req := if username ≠ "" ∧ password ≠ "" then
        req.SetBasicAuth username password else req
    let req := match sessionCookie with
      | some ck => req.AddCookie env ck
      | none => req
    .ok (req.HeaderAdd "Accept" "application/json")

/-- The outcome of the `select` of client.go:66. -/
inductive SelectResult where
  | sent (sem : Chan)
  | done (err : StdError)
  | waiting
deriving DecidableEq

/-- The `select` of client.go:66-71.  A case is ready when its communication can
proceed; when both are ready the runtime picks one (`selectSend`); when none
is, the goroutine waits. -/
def selectGate (env : Env) (sem : Chan) (ctx : Context) : SelectResult :=
  match sem.canSend, ctx.Err with
  | true, none => .sent sem.send
  | false, some err => .done err
  | true, some err => if env.selectSend then .sent sem.send else .done err
  | false, none => .waiting

/-- How far a call of `doGet` gets in lines 61-73: the request cannot be built,
the call waits at the gate, the `ctx.Done()` case is taken, or the slot is
acquired and `httpClient.Do` returns an error or a response. -/
inductive Attempt where
  | buildError (err : StdError)
  | waiting
  | cancelled (err : StdError)
  | transportError (req : Request) (sem : Chan) (err : StdError)
  | response (req : Request) (sem : Chan) (res : Response)
deriving DecidableEq

/-- Lines 61-73 of `doGet`: build the request, pass the gate, call the
transport.  `req` is the request handed to `httpClient.Do`, `sem` the
semaphore after the send. -/
def client.attempt (env : Env) (c : client) (w : World) (ctx : Context) (url : String) :
    Attempt :=
  match createGetRequest env (c.baseURL ++ url) c.username c.password c.sessionCookie with
  | .error err => .buildError err
  | .ok req =>
    match selectGate env c.semaphore ctx with
    | .waiting => .waiting
    | .done err => .cancelled err
    | .sent sem =>
      match env.roundTrip w.calls.length (req.WithContext ctx) with
      | .error err => .transportError (req.WithContext ctx) sem err
      | .ok res => .response (req.WithContext ctx) sem res

/-- The call took a slot of the semaphore. -/
def Attempt.acquired : Attempt → Bool
  | .transportError _ _ _ => true
  | .response _ _ _ => true
  | _ => false

/-- Lines 84-109 of `doGet`: the classification of a response, giving the
returned error, the client and the decode target. -/
def classify {V : Type} (decode : String → V → V × Option StdError)
    (c : client) (url : String) (res : Response) (v : V) : Option Error × client × V :=
  if res.StatusCode = StatusUnauthorized then
    (some (.api ⟨url, res.StatusCode, res.Status, ""⟩), { c with sessionCookie := none }, v)
  else if res.StatusCode < 200 ∨ res.StatusCode ≥ 300 then
    (some (.api ⟨url, res.StatusCode, res.Status, ""⟩), c, v)
  else if res.StatusCode = StatusNoContent then
    (some (.api ⟨url, res.StatusCode, res.Status, ""⟩), c, v)
  else
    match decode res.Body v with
    | (v1, some err) => (some (.std err), c, v1)
    | (v1, none) => (none, c, v1)

/-- Go `func (c *client) doGet` (client.go:60): `attempt` for lines 61-73, then
the release on a transport error (line 75), or `classify` (lines 84-109)
followed by the deferred function of line 78. -/
def client.doGet {V : Type} (env : Env) (decode : String → V → V × Option StdError)
    (c : client) (w : World) (ctx : Context) (url : String) (v : V) :
    Res (Option Error) (client × World × V) :=
  match c.attempt env w ctx url with
  | .buildError err => .returned (some (.std err)) (c, w, v)
  | .waiting => .blocked
  | .cancelled err => .returned (some (.std err)) (c, w, v)
  | .transportError req sem err =>
    let w1 : World := { w with sends := w.sends + 1, calls := w.calls ++ [req] }
    match sem.recv with
    | none => .blocked
    | some sem2 =>
      .returned (some (.std err))
        ({ c with semaphore := sem2 }, { w1 with recvs := w1.recvs + 1 }, v)
  | .response req sem res =>
    let w1 : World := { w with sends := w.sends + 1, calls := w.calls ++ [req] }
    match classify decode { c with semaphore := sem } url res v with
    | (err, c2, v2) =>
      match c2.semaphore.recv with
      | none => .blocked
      | some sem2 =>
        .returned err
          ({ c2 with semaphore := sem2 },
           { w1 with closes := w1.closes + 1, recvs := w1.recvs + 1 }, v2)

/-- Go `spacePath` (confluence.go:19). -/
def spacePath : String := "/rest/api/space"

/-- Go `measurementSpace` (confluence.go:23). -/
def measurementSpace : String := "confluence_space"

/-- Go `func (c *client) getAllSpaces` (client.go:141). -/
def client.getAllSpaces (env : Env) (c : client) (w : World) (ctx : Context) :
    Res (spaceResponse × Option Error) (client × World) :=
  match c.doGet env env.jsonDecode w ctx spacePath spaceResponse.new with
  | .returned err (c1, w1, spaceResp) => .returned (spaceResp, err) (c1, w1)
  | .blocked => .blocked
  | .panicked => .panicked

/-- The loop of client.go:46-51 over `res.Cookies()`. -/
def scanCookies (c : client) : List Cookie → client
  | [] => c
  | cookie :: rest =>
    if stringsContains cookie.Name "JSESSIONID" then
      { c with sessionCookie := some cookie }
    else
      scanCookies c rest

/-- Go `func (c *client) init` (client.go:30). -/
def client.init (env : Env) (c : client) (w : World) :
    Res (Option Error) (client × World) :=
  match NewRequest env "GET" c.baseURL with
  | .error err => .returned (some (.std err)) (c, w)
  | .ok req =>
    let req := if c.username ≠ "" ∧ c.password ≠ "" then
        req.SetBasicAuth c.username c.password else req
    let w1 : World := { w with calls := w.calls ++ [req] }
    match env.roundTrip w.calls.length req with
    | .error err => .returned (some (.std err)) (c, w1)
    | .ok res =>
      let c1 := scanCookies c res.Cookies
      match c1.doGet env env.jsonDecode w1 Context.Background spacePath spaceResponse.new with
      | .returned err (c2, w2, _) =>
        -- the deferred `res.Body.Close()` of line 45
        .returned err (c2, { w2 with closes := w2.closes + 1 })
      | .blocked => .blocked
      | .panicked => .panicked

/-! ## confluence.go -/

/-- A value stored in the `fields` map of a metric. -/
inductive FieldValue where
  | int32 (n : Int)
  | str (s : String)
deriving DecidableEq

/-- A call received by the `telegraf.Accumulator`. -/
inductive AccEvent where
  | AddFields (measurement : String) (fields : List (String × FieldValue))
      (tags : List (String × String))
  | AddError (err : Error)
deriving DecidableEq

/-- The calls a `telegraf.Accumulator` has received, oldest first. -/
abbrev Accumulator := List AccEvent

/-- Go `type Confluence struct` (confluence.go:29), without the fields no function
of the package reads (`HTTPTimeout` and the self-statistics).  The embedded
`tls.ClientConfig` is `Env.tlsConfig`. -/
structure Confluence where
  URL : String
  Username : String
  Password : String
  MaxConnections : Int
  client : Option client
  semaphore : Option Chan
deriving DecidableEq

/-- Go `func (c *Confluence) newHTTPClient` (confluence.go:88).  The client it
builds is the transport of `Env`. -/
def Confluence.newHTTPClient (env : Env) (c : Confluence) : Except Error Unit :=
  match env.tlsConfig with
  | some err => .error (.std ⟨"error parse confluence config[" ++ c.URL ++ "]: " ++ err.msg⟩)
  | none => .ok ()

/-- Go `func (c *Confluence) initialize` (confluence.go:103). -/
def Confluence.initializeClient (env : Env) (c : Confluence) (w : World) :
    Res (Option Error) (Confluence × World) :=
  let c1 : Confluence := if c.MaxConnections ≤ 0 then { c with MaxConnections := 5 } else c
  let c2 : Confluence := { c1 with semaphore := Chan.make 0 }
  match newClient c2.URL c2.Username c2.Password c2.MaxConnections with
  | none => .panicked
  | some cl =>
    -- `c.client` is assigned before `init` runs; `init` mutates it in place
    match cl.init env w with
    | .returned err (cl1, w1) => .returned err ({ c2 with client := some cl1 }, w1)
    | .blocked => .blocked
    | .panicked => .panicked

/-- Go `func (c *Confluence) gatherSpaceData` (confluence.go:139). -/
def Confluence.gatherSpaceData (env : Env) (c : Confluence) (s : space)
    (acc : Accumulator) : Option Error × Accumulator :=
  if s.Name = "" then
    (some (.std ⟨"error empty space name"⟩), acc)
  else
    match env.urlParse c.URL with
    | .error err => (some (.std err), acc)
    | .ok u =>
      let tags : List (String × String) := [("source", u.Hostname), ("port", u.Port)]
      let fields : List (String × FieldValue) :=
        [("id", .int32 s.Id), ("key", .str s.Key), ("name", .str s.Name),
         ("type", .str s.Type_), ("webui", .str s.Links.WebUI), ("self", .str s.Links.Self)]
      (none, acc ++ [.AddFields measurementSpace fields tags])

/-- The loop of confluence.go:172-178 over `spaceResp.Results`. -/
def Confluence.gatherEach (env : Env) (c : Confluence) : List space → Accumulator → Accumulator
  | [], acc => acc
  | s :: rest, acc =>
    match c.gatherSpaceData env s acc with
    | (none, acc1) => Confluence.gatherEach env c rest acc1
    | (some err, acc1) => Confluence.gatherEach env c rest (acc1 ++ [.AddError err])

/-- Go `func (c *Confluence) gatherSpacesData` (confluence.go:165); a nil
`c.client` is a nil-pointer panic. -/
def Confluence.gatherSpacesData (env : Env) (c : Confluence) (w : World)
    (acc : Accumulator) : Res Unit (Confluence × World × Accumulator) :=
  match c.client with
  | none => .panicked
  | some cl =>
    match cl.getAllSpaces env w Context.Background with
    | .returned (_, some err) (cl1, w1) =>
      .returned () ({ c with client := some cl1 }, w1, acc ++ [.AddError err])
    | .returned (spaceResp, none) (cl1, w1) =>
      .returned () ({ c with client := some cl1 }, w1,
        Confluence.gatherEach env { c with client := some cl1 } spaceResp.Results acc)
    | .blocked => .blocked
    | .panicked => .panicked

/-- Lines 73-81 of `Gather`: build and initialise the client when there is none. -/
def Confluence.ensureClient (env : Env) (c : Confluence) (w : World) :
    Res (Option Error) (Confluence × World) :=
  match c.client with
  | none =>
    match c.newHTTPClient env with
    | .error err => .returned (some err) (c, w)
    | .ok _ => c.initializeClient env w
  | some _ => .returned none (c, w)

/-- Go `func (c *Confluence) Gather` (confluence.go:72): `ensureClient` for lines
73-81, then lines 83-84. -/
def Confluence.Gather (env : Env) (c : Confluence) (w : World) (acc : Accumulator) :
    Res (Option Error) (Confluence × World × Accumulator) :=
  match c.ensureClient env w with
  | .returned (some err) (c1, w1) => .returned (some err) (c1, w1, acc)
  | .returned none (c1, w1) =>
    match c1.gatherSpacesData env w1 acc with
    | .returned _ s => .returned none s
    | .blocked => .blocked
    | .panicked => .panicked
  | .blocked => .blocked
  | .panicked => .panicked

/-- The agent's collection loop: `n` successive calls of `Gather` on the same
plugin and accumulator, whatever each one returns. -/
def Confluence.cycles (env : Env) : Nat → Confluence → World → Accumulator →
    Res Unit (Confluence × World × Accumulator)
  | 0, c, w, acc => .returned () (c, w, acc)
  | n + 1, c, w, acc =>
    match c.Gather env w acc with
    | .returned _ (c1, w1, acc1) => Confluence.cycles env n c1 w1 acc1
    | .blocked => .blocked
    | .panicked => .panicked

/-! ## Concurrent calls of `doGet` on one client

Each call is a goroutine; what it shares with the others is the semaphore.
A call is described by the point of `doGet` it has reached, and an
interleaving is a list of steps, each naming the call that moves. -/

/-- Where a call of `doGet` stands. -/
inductive PC where
  | building   -- line 61, before `createGetRequest`
  | atGate     -- line 66, at the `select`
  | inFlight   -- line 73, slot held, `httpClient.Do` running
  | failed     -- line 75, `Do` returned an error, receive pending
  | responded  -- lines 78-109, response in hand, deferred receive pending
  | returned
deriving DecidableEq

/-- What a call does next. -/
inductive Action where
  | build (ok : Bool)      -- `createGetRequest` returns a request / an error
  | acquire                 -- the send case of the `select` proceeds
  | cancel                  -- the `ctx.Done()` case of the `select` proceeds
  | doReturns (ok : Bool)   -- `httpClient.Do` returns a response / an error
  | release                 -- `<-c.semaphore`, then return
deriving DecidableEq

/-- The shared semaphore and the calls in progress. -/
structure Sys where
  sem : Chan
  pcs : List PC
deriving DecidableEq

/-- A call that is past the gate and has not yet released its slot. -/
def PC.pastGate : PC → Bool
  | .inFlight => true
  | .failed => true
  | .responded => true
  | _ => false

/-- The number of calls past the gate that have not yet released their slot. -/
def Sys.pastGate (s : Sys) : Nat := s.pcs.countP PC.pastGate

/-- One step of call `i`; `none` when the step is not enabled. -/
def Sys.step (s : Sys) (i : Nat) (a : Action) : Option Sys :=
  match s.pcs[i]?, a with
  | some .building, .build true => some { s with pcs := s.pcs.set i .atGate }
  | some .building, .build false => some { s with pcs := s.pcs.set i .returned }
  | some .atGate, .acquire =>
    if s.sem.canSend then some { sem := s.sem.send, pcs := s.pcs.set i .inFlight } else none
  | some .atGate, .cancel => some { s with pcs := s.pcs.set i .returned }
  | some .inFlight, .doReturns true => some { s with pcs := s.pcs.set i .responded }
  | some .inFlight, .doReturns false => some { s with pcs := s.pcs.set i .failed }
  | some .failed, .release =>
    match s.sem.recv with
    | none => none
    | some sem => some { sem := sem, pcs := s.pcs.set i .returned }
  | some .responded, .release =>
    match s.sem.recv with
    | none => none
    | some sem => some { sem := sem, pcs := s.pcs.set i .returned }
  | _, _ => none

/-- The state after an interleaving; `none` when one of its steps is not enabled. -/
def Sys.run (s : Sys) : List (Nat × Action) → Option Sys
  | [] => some s
  | (i, a) :: rest =>
    match s.step i a with
    | none => none
    | some s1 => Sys.run s1 rest

/-- The start of `M` calls of `doGet` on client `c`. -/
def Sys.start (c : client) (M : Nat) : Sys := ⟨c.semaphore, List.replicate M .building⟩

/-! ## Requests -/

/-- A request carries a basic-auth header. -/
def Request.hasBasicAuth (req : Request) : Bool := req.BasicAuth.isSome

/-- A request carries the header `key: value`. -/
def Request.hasHeader (req : Request) (key value : String) : Bool :=
  req.Header.contains (key, value)

/-! ## Expected reports -/

/-- The session cookie `init` is expected to pick: the first cookie, in response
order, whose name contains `JSESSIONID`. -/
def sessionCookieOf (cookies : List Cookie) : Option Cookie :=
  cookies.find? (fun cookie => stringsContains cookie.Name "JSESSIONID")

/-- The report expected for one space: an error for a space without a name, a
`confluence_space` metric otherwise. -/
def expectedReport (u : URL) (s : space) : AccEvent :=
  if s.Name = "" then
    .AddError (.std ⟨"error empty space name"⟩)
  else
    .AddFields "confluence_space"
      [("id", .int32 s.Id), ("key", .str s.Key), ("name", .str s.Name),
       ("type", .str s.Type_), ("webui", .str s.Links.WebUI), ("self", .str s.Links.Self)]
      [("source", u.Hostname), ("port", u.Port)]

/-! ## Sample collaborators -/

/-- Two spaces, the first one without a name. -/
def sampleSpaces : List space :=
  [⟨7, "NN", "", "global", ⟨"/display/NN", "/rest/api/space/NN"⟩, ⟨"", "", "", ""⟩⟩,
   ⟨8, "DEV", "Development", "global", ⟨"/display/DEV", "/rest/api/space/DEV"⟩,
     ⟨"", "", "", ""⟩⟩]

/-- The name sanitiser of `net/http`: line feed and carriage return become `-`. -/
def sampleSanitizeName (n : String) : String :=
  ⟨n.data.map (fun ch => if ch.toNat = 10 ∨ ch.toNat = 13 then '-' else ch)⟩

/-- The bytes `net/http` keeps in a cookie value: printable ASCII other than
the double quote (34), the semicolon (59) and the backslash (92).  A character
outside ASCII is made of bytes that are all dropped. -/
def validCookieValueChar (ch : Char) : Bool :=
  decide (32 ≤ ch.toNat ∧ ch.toNat < 127 ∧ ch.toNat ≠ 34 ∧ ch.toNat ≠ 59 ∧ ch.toNat ≠ 92)

/-- The value sanitiser of `net/http`: invalid bytes are dropped, and a value
with a space (32) or a comma (44) is put between double quotes. -/
def sampleSanitizeValue (v : String) : String :=
  let kept := v.data.filter validCookieValueChar
  if kept.any (fun ch => ch.toNat = 32 ∨ ch.toNat = 44) then
    ⟨[Char.ofNat 34] ++ kept ++ [Char.ofNat 34]⟩
  else
    ⟨kept⟩

/-- A sample world: URLs need a scheme separator, the body `spaces` decodes to
`sampleSpaces`, every other body is malformed, cookies are sanitised as
`net/http` does, and the transport answers call number `k` with `answers k`. -/
def sampleEnv (answers : Nat → Except StdError Response) (pick : Bool) : Env :=
  { urlParse := fun u =>
      if stringsContains u "://" then .ok ⟨"confluence.example.org", "8090"⟩
      else .error ⟨"missing protocol scheme"⟩
    roundTrip := fun k _ => answers k
    jsonDecode := fun body v =>
      if body = "spaces" then (⟨sampleSpaces⟩, none)
      else (v, some ⟨"invalid character"⟩)
    tlsConfig := none
    sanitizeCookieName := sampleSanitizeName
    sanitizeCookieValue := sampleSanitizeValue
    selectSend := pick }

/-- A 200 response whose body decodes to `sampleSpaces`. -/
def okResponse : Response := ⟨200, "200 OK", [], "spaces"⟩

/-- A sample world whose transport behaves as `net/http` does: it answers a
request whose context is cancelled with an error wrapping the context's error,
and any other request with `okResponse`. -/
def cancelAwareEnv (pick : Bool) : Env :=
  { sampleEnv (fun _ => .ok okResponse) pick with
    roundTrip := fun _ req =>
      match req.ctx.Err with
      | some err => .error ⟨"Get " ++ req.URL ++ ": " ++ err.msg⟩
      | none => .ok okResponse }

/-- A client with one free slot out of one. -/
def sampleClient : client :=
  ⟨"http://confluence.example.org", "admin", "secret", some ⟨"JSESSIONID", "abc"⟩, ⟨0, 1⟩⟩

/-- A context that is already cancelled. -/
def cancelledCtx : Context := ⟨some ⟨"context canceled"⟩⟩

/-- A 401 response. -/
def unauthorizedResponse : Response := ⟨401, "401 Unauthorized", [], ""⟩

/-- A 500 response. -/
def serverErrorResponse : Response := ⟨500, "500 Internal Server Error", [], ""⟩

/-- The request `sampleClient` builds for the spaces endpoint. -/
def sampleRequest : Request :=
  ⟨"GET", "http://confluence.example.org/rest/api/space", some ("admin", "secret"),
    [⟨"JSESSIONID", "abc"⟩], [("Accept", "application/json")], Context.Background⟩

/-- The log after one complete exchange with the transport. -/
def sampleLog (req : Request) (closes : Nat) : World := ⟨[req], 1, 1, closes⟩

/-- A bootstrap answer with three cookies, the second and third of which have a
name containing `JSESSIONID`. -/
def bootstrapResponse : Response :=
  ⟨200, "200 OK", [⟨"lang", "en"⟩, ⟨"JSESSIONID", "abc"⟩, ⟨"XJSESSIONID", "zzz"⟩], ""⟩

/-- The bootstrap request of a client with the sample credentials. -/
def bootstrapRequest : Request :=
  ⟨"GET", "http://confluence.example.org", some ("admin", "secret"), [], [],
    Context.Background⟩

/-- A transport that answers the first call with `first` and every later call
with `okResponse`. -/
def answersAfter (first : Except StdError Response) : Nat → Except StdError Response
  | 0 => first
  | _ + 1 => .ok okResponse

/-- A plugin as configured, before its first cycle. -/
def samplePlugin : Confluence :=
  ⟨"http://confluence.example.org", "admin", "secret", 0, none, none⟩

/-- The steps of the step machine that one sequential call of `doGet` takes. -/
def Attempt.steps : Attempt → List Action
  | .buildError _ => [.build false]
  | .waiting => [.build true]
  | .cancelled _ => [.build true, .cancel]
  | .transportError _ _ _ => [.build true, .acquire, .doReturns false, .release]
  | .response _ _ _ => [.build true, .acquire, .doReturns true, .release]

/-! ## Helper lemmas -/

theorem Chan.recv_send (ch : Chan) : ch.send.recv = some ch := by
  cases ch
  simp [Chan.send, Chan.recv]

theorem stringsContains_iff (s substr : String) :
    stringsContains s substr = true ↔ substr.data <:+: s.data := by
  simp only [stringsContains, List.any_eq_true, List.mem_tails, List.isPrefixOf_iff_prefix]
  constructor
  · rintro ⟨t, ht, hp⟩
    exact List.infix_iff_prefix_suffix.mpr ⟨t, hp, ht⟩
  · intro h
    obtain ⟨t, hp, ht⟩ := List.infix_iff_prefix_suffix.mp h
    exact ⟨t, ht, hp⟩

theorem createGetRequest_ok {env : Env} {url username password : String}
    {sessionCookie : Option Cookie} {req : Request}
    (h : createGetRequest env url username password sessionCookie = .ok req) :
    req = { Method := "GET", URL := url,
            BasicAuth := if username ≠ "" ∧ password ≠ "" then some (username, password) else none,
            Cookies := (sessionCookie.map env.sanitizeCookie).toList,
            Header := [("Accept", "application/json")],
            ctx := Context.Background } := by
  unfold createGetRequest NewRequest at h
  cases hu : env.urlParse url with
  | error e => simp [hu] at h
  | ok u =>
    simp only [hu] at h
    cases sessionCookie <;> split_ifs at h with hc <;>
      simp [Request.SetBasicAuth, Request.AddCookie, Request.HeaderAdd] at h <;>
      simp [← h, hc]

theorem selectGate_sent {env : Env} {sem s : Chan} {ctx : Context}
    (h : selectGate env sem ctx = .sent s) :
    s = sem.send ∧ sem.canSend = true ∧ (ctx.Err = none ∨ env.selectSend = true) := by
  unfold selectGate at h
  split at h
  · next h1 h2 => simp at h; exact ⟨h.symm, h1, Or.inl h2⟩
  · simp at h
  · next h1 h2 =>
    split_ifs at h with hs
    · simp at h; exact ⟨h.symm, h1, Or.inr hs⟩
  · simp at h

theorem selectGate_done {env : Env} {sem : Chan} {ctx : Context} {err : StdError}
    (h : selectGate env sem ctx = .done err) :
    ctx.Err = some err ∧ (sem.canSend = false ∨ env.selectSend = false) := by
  unfold selectGate at h
  split at h
  · simp at h
  · next h1 h2 => simp at h; subst h; exact ⟨h2, Or.inl h1⟩
  · next h1 h2 =>
    split_ifs at h with hs
    · simp at h; subst h; exact ⟨h2, Or.inr (by simpa using hs)⟩
  · simp at h

theorem selectGate_waiting {env : Env} {sem : Chan} {ctx : Context}
    (h : selectGate env sem ctx = .waiting) :
    ctx.Err = none ∧ sem.canSend = false := by
  unfold selectGate at h
  split at h
  · simp at h
  · simp at h
  · split_ifs at h
  · next h1 h2 => exact ⟨h2, h1⟩

theorem attempt_response {env : Env} {c : client} {w : World} {ctx : Context} {url : String}
    {req : Request} {sem : Chan} {res : Response}
    (h : c.attempt env w ctx url = .response req sem res) :
    ∃ req0, createGetRequest env (c.baseURL ++ url) c.username c.password c.sessionCookie
        = .ok req0 ∧
      req = req0.WithContext ctx ∧ selectGate env c.semaphore ctx = .sent sem ∧
      env.roundTrip w.calls.length req = .ok res := by
  unfold client.attempt at h
  split at h
  · simp at h
  · next req0 hreq =>
    split at h
    · simp at h
    · simp at h
    · next sem0 hsel =>
      split at h
      · simp at h
      · next res0 hrt =>
        simp at h
        obtain ⟨h1, h2, h3⟩ := h
        subst h1 h2 h3
        exact ⟨req0, hreq, rfl, hsel, hrt⟩

theorem attempt_transportError {env : Env} {c : client} {w : World} {ctx : Context}
    {url : String} {req : Request} {sem : Chan} {err : StdError}
    (h : c.attempt env w ctx url = .transportError req sem err) :
    ∃ req0, createGetRequest env (c.baseURL ++ url) c.username c.password c.sessionCookie
        = .ok req0 ∧
      req = req0.WithContext ctx ∧ selectGate env c.semaphore ctx = .sent sem ∧
      env.roundTrip w.calls.length req = .error err := by
  unfold client.attempt at h
  split at h
  · simp at h
  · next req0 hreq =>
    split at h
    · simp at h
    · simp at h
    · next sem0 hsel =>
      split at h
      · next err0 hrt =>
        simp at h
        obtain ⟨h1, h2, h3⟩ := h
        subst h1 h2 h3
        exact ⟨req0, hreq, rfl, hsel, hrt⟩
      · simp at h

theorem attempt_cancelled {env : Env} {c : client} {w : World} {ctx : Context}
    {url : String} {err : StdError}
    (h : c.attempt env w ctx url = .cancelled err) :
    ctx.Err = some err ∧ (c.semaphore.canSend = false ∨ env.selectSend = false) := by
  unfold client.attempt at h
  split at h
  · simp at h
  · split at h
    · simp at h
    · next e hsel =>
      simp at h
      subst h
      exact selectGate_done hsel
    · split at h <;> simp at h

theorem attempt_waiting {env : Env} {c : client} {w : World} {ctx : Context}
    {url : String} (h : c.attempt env w ctx url = .waiting) :
    ctx.Err = none ∧ c.semaphore.canSend = false := by
  unfold client.attempt at h
  split at h
  · simp at h
  · split at h
    · next hsel => exact selectGate_waiting hsel
    · simp at h
    · split at h <;> simp at h

theorem classify_semaphore {V : Type} (decode : String → V → V × Option StdError)
    (c : client) (url : String) (res : Response) (v : V) :
    (classify decode c url res v).2.1.semaphore = c.semaphore := by
  unfold classify
  split_ifs <;> try rfl
  split <;> rfl

theorem classify_static {V : Type} (decode : String → V → V × Option StdError)
    (c : client) (url : String) (res : Response) (v : V) :
    (classify decode c url res v).2.1.baseURL = c.baseURL ∧
    (classify decode c url res v).2.1.username = c.username ∧
    (classify decode c url res v).2.1.password = c.password := by
  unfold classify
  split_ifs <;> try exact ⟨rfl, rfl, rfl⟩
  split <;> exact ⟨rfl, rfl, rfl⟩

theorem classify_sessionCookie {V : Type} (decode : String → V → V × Option StdError)
    (c : client) (url : String) (res : Response) (v : V) :
    (classify decode c url res v).2.1.sessionCookie =
      if res.StatusCode = 401 then none else c.sessionCookie := by
  unfold classify StatusUnauthorized
  split_ifs <;> try rfl
  split <;> rfl

theorem doGet_of_response {V : Type} {env : Env} (decode : String → V → V × Option StdError)
    {c : client} {w : World} {ctx : Context} {url : String} (v : V)
    {req : Request} {sem : Chan} {res : Response}
    (h : c.attempt env w ctx url = .response req sem res) :
    c.doGet env decode w ctx url v =
      .returned (classify decode { c with semaphore := sem } url res v).1
        ({ (classify decode { c with semaphore := sem } url res v).2.1 with
            semaphore := c.semaphore },
         { calls := w.calls ++ [req], sends := w.sends + 1, recvs := w.recvs + 1,
           closes := w.closes + 1 },
         (classify decode { c with semaphore := sem } url res v).2.2) := by
  obtain ⟨req0, _, _, hsel, _⟩ := attempt_response h
  obtain ⟨hsem, _, _⟩ := selectGate_sent hsel
  subst hsem
  unfold client.doGet
  simp only [h]
  rw [classify_semaphore]
  simp [Chan.recv_send]

theorem doGet_of_transportError {V : Type} {env : Env}
    (decode : String → V → V × Option StdError)
    {c : client} {w : World} {ctx : Context} {url : String} (v : V)
    {req : Request} {sem : Chan} {err : StdError}
    (h : c.attempt env w ctx url = .transportError req sem err) :
    c.doGet env decode w ctx url v =
      .returned (some (.std err))
        (c, { calls := w.calls ++ [req], sends := w.sends + 1, recvs := w.recvs + 1,
              closes := w.closes }, v) := by
  obtain ⟨req0, _, _, hsel, _⟩ := attempt_transportError h
  obtain ⟨hsem, _, _⟩ := selectGate_sent hsel
  subst hsem
  unfold client.doGet
  simp [h, Chan.recv_send]

theorem doGet_eq {V : Type} (env : Env) (decode : String → V → V × Option StdError)
    (c : client) (w : World) (ctx : Context) (url : String) (v : V) :
    c.doGet env decode w ctx url v =
      match c.attempt env w ctx url with
      | .buildError err => .returned (some (.std err)) (c, w, v)
      | .waiting => .blocked
      | .cancelled err => .returned (some (.std err)) (c, w, v)
      | .transportError req _ err =>
        .returned (some (.std err))
          (c, { calls := w.calls ++ [req], sends := w.sends + 1, recvs := w.recvs + 1,
                closes := w.closes }, v)
      | .response req sem res =>
        .returned (classify decode { c with semaphore := sem } url res v).1
          ({ (classify decode { c with semaphore := sem } url res v).2.1 with
              semaphore := c.semaphore },
           { calls := w.calls ++ [req], sends := w.sends + 1, recvs := w.recvs + 1,
             closes := w.closes + 1 },
           (classify decode { c with semaphore := sem } url res v).2.2) := by
  cases hatt : c.attempt env w ctx url with
  | buildError err => simp [client.doGet, hatt]
  | waiting => simp [client.doGet, hatt]
  | cancelled err => simp [client.doGet, hatt]
  | transportError req sem err => simpa using doGet_of_transportError decode v hatt
  | response req sem res => simpa using doGet_of_response decode v hatt

theorem classify_api_of_bad_status {V : Type} (decode : String → V → V × Option StdError)
    (c : client) (url : String) (res : Response) (v : V)
    (hs : res.StatusCode < 200 ∨ 300 ≤ res.StatusCode ∨ res.StatusCode = 204) :
    (classify decode c url res v).1 = some (.api ⟨url, res.StatusCode, res.Status, ""⟩) ∧
    (classify decode c url res v).2.2 = v := by
  unfold classify StatusUnauthorized StatusNoContent
  split_ifs with h1 h2 h3
  · exact ⟨rfl, rfl⟩
  · exact ⟨rfl, rfl⟩
  · exact ⟨rfl, rfl⟩
  · exfalso
    rcases hs with hs | hs | hs
    · exact h2 (Or.inl hs)
    · exact h2 (Or.inr hs)
    · exact h3 hs

theorem classify_none {V : Type} (decode : String → V → V × Option StdError)
    (c : client) (url : String) (res : Response) (v : V)
    (h : (classify decode c url res v).1 = none) :
    200 ≤ res.StatusCode ∧ res.StatusCode < 300 ∧ res.StatusCode ≠ 204 ∧
      decode res.Body v = ((classify decode c url res v).2.2, none) := by
  unfold classify StatusUnauthorized StatusNoContent at h ⊢
  split_ifs at h ⊢ with h1 h2 h3
  push_neg at h2
  refine ⟨h2.1, h2.2, h3, ?_⟩
  rcases hd : decode res.Body v with ⟨v1, _ | e⟩
  · simp [hd]
  · simp [hd] at h

theorem classify_api {V : Type} (decode : String → V → V × Option StdError)
    (c : client) (url : String) (res : Response) (v : V) (e : APIError)
    (h : (classify decode c url res v).1 = some (.api e)) :
    e = ⟨url, res.StatusCode, res.Status, ""⟩ := by
  unfold classify at h
  split_ifs at h
  · simpa using h.symm
  · simpa using h.symm
  · simpa using h.symm
  · split at h <;> simp at h

/-! ## The request builder -/

/-- C6: for a URL that parses, `createGetRequest` returns a GET request to that
URL which has a basic-auth header (with the given credentials) iff both username
and password are non-empty, carries a session cookie iff one was supplied (the
cookie as `AddCookie` writes it: its sanitised name and value, hence the cookie
itself when sanitising leaves it as it is), and has the header
`Accept: application/json`; it fails only when the URL does not parse. -/
theorem createGetRequest_spec (env : Env) (url username password : String)
    (sessionCookie : Option Cookie) :
    (∀ u, env.urlParse url = .ok u →
      ∃ req, createGetRequest env url username password sessionCookie = .ok req ∧
        req.Method = "GET" ∧ req.URL = url ∧
        (req.hasBasicAuth = true ↔ username ≠ "" ∧ password ≠ "") ∧
        (req.hasBasicAuth = true → req.BasicAuth = some (username, password)) ∧
        (req.Cookies ≠ [] ↔ sessionCookie ≠ none) ∧
        (∀ ck, sessionCookie = some ck → req.Cookies = [env.sanitizeCookie ck]) ∧
        (∀ ck, sessionCookie = some ck → env.sanitizeCookie ck = ck → req.Cookies = [ck]) ∧
        req.hasHeader "Accept" "application/json" = true) ∧
    (∀ err, createGetRequest env url username password sessionCookie = .error err →
      env.urlParse url = .error err) := by
  constructor
  · intro u hu
    cases hreq : createGetRequest env url username password sessionCookie with
    | error e => simp [createGetRequest, NewRequest, hu] at hreq
    | ok req =>
      have := createGetRequest_ok hreq
      subst this
      refine ⟨_, rfl, rfl, rfl, ?_, ?_, ?_, ?_, ?_, ?_⟩
      · by_cases hc : username ≠ "" ∧ password ≠ "" <;> simp [Request.hasBasicAuth, hc]
      · by_cases hc : username ≠ "" ∧ password ≠ "" <;> simp [Request.hasBasicAuth, hc]
      · cases sessionCookie <;> simp
      · intro ck hck
        subst hck
        rfl
      · intro ck hck hsame
        subst hck
        simp [hsame]
      · simp [Request.hasHeader]
  · intro err h
    unfold createGetRequest NewRequest at h
    cases hu : env.urlParse url with
    | error e => simpa [hu] using h
    | ok u => simp [hu] at h

/-- C6, at a concrete input: credentials and a session cookie are both supplied,
and the value of the cookie has a byte that `net/http` drops. -/
theorem createGetRequest_spec_witness :
    createGetRequest (sampleEnv (fun _ => .ok okResponse) true)
        "http://confluence.example.org/rest/api/space" "admin" "secret"
        (some ⟨"JSESSIONID", "a;b"⟩) =
      .ok ⟨"GET", "http://confluence.example.org/rest/api/space", some ("admin", "secret"),
        [⟨"JSESSIONID", "ab"⟩], [("Accept", "application/json")], Context.Background⟩ ∧
    ∃ req, createGetRequest (sampleEnv (fun _ => .ok okResponse) true)
        "http://confluence.example.org/rest/api/space" "admin" "secret"
        (some ⟨"JSESSIONID", "a;b"⟩) = .ok req ∧
      req.Method = "GET" ∧ req.URL = "http://confluence.example.org/rest/api/space" ∧
      (req.hasBasicAuth = true ↔ "admin" ≠ "" ∧ "secret" ≠ "") ∧
      (req.hasBasicAuth = true → req.BasicAuth = some ("admin", "secret")) ∧
      (req.Cookies ≠ [] ↔ some (⟨"JSESSIONID", "a;b"⟩ : Cookie) ≠ none) ∧
      (∀ ck, some (⟨"JSESSIONID", "a;b"⟩ : Cookie) = some ck →
        req.Cookies = [(sampleEnv (fun _ => .ok okResponse) true).sanitizeCookie ck]) ∧
      (∀ ck, some (⟨"JSESSIONID", "a;b"⟩ : Cookie) = some ck →
        (sampleEnv (fun _ => .ok okResponse) true).sanitizeCookie ck = ck →
        req.Cookies = [ck]) ∧
      req.hasHeader "Accept" "application/json" = true :=
  ⟨by rfl,
    (createGetRequest_spec (sampleEnv (fun _ => .ok okResponse) true)
      "http://confluence.example.org/rest/api/space" "admin" "secret"
      (some ⟨"JSESSIONID", "a;b"⟩)).1 ⟨"confluence.example.org", "8090"⟩ rfl⟩

/-! ## The fetcher -/

/-- C1: after a completed call of `doGet` the session cookie is nil when the
transport answered with status 401, and is the cookie held before the call on
every other path; after a 401 the request built by the next `doGet` carries no
cookie. -/
theorem doGet_sessionCookie {V : Type} (env : Env)
    (decode : String → V → V × Option StdError) (c : client) (w : World) (ctx : Context)
    (url : String) (v : V) (err : Option Error) (c1 : client) (w1 : World) (v1 : V)
    (h : c.doGet env decode w ctx url v = .returned err (c1, w1, v1)) :
    (∀ req sem res, c.attempt env w ctx url = .response req sem res →
        res.StatusCode = 401 → c1.sessionCookie = none) ∧
    ((∀ req sem res, c.attempt env w ctx url = .response req sem res →
        res.StatusCode ≠ 401) → c1.sessionCookie = c.sessionCookie) ∧
    (∀ req sem res, c.attempt env w ctx url = .response req sem res →
        res.StatusCode = 401 →
        ∀ url2 req2,
          createGetRequest env (c1.baseURL ++ url2) c1.username c1.password
            c1.sessionCookie = .ok req2 → req2.Cookies = []) := by
  rw [doGet_eq] at h
  have key : ∀ req sem res, c.attempt env w ctx url = .response req sem res →
      c1.sessionCookie = if res.StatusCode = 401 then none else c.sessionCookie := by
    intro req sem res hatt
    simp only [hatt, Res.returned.injEq, Prod.mk.injEq] at h
    obtain ⟨-, hc, -, -⟩ := h
    rw [← hc]
    simp [classify_sessionCookie]
  refine ⟨?_, ?_, ?_⟩
  · intro req sem res hatt h401
    simp [key req sem res hatt, h401]
  · intro hno
    cases hatt : c.attempt env w ctx url with
    | buildError e => simp [hatt] at h; rw [← h.2.1]
    | waiting => simp [hatt] at h
    | cancelled e => simp [hatt] at h; rw [← h.2.1]
    | transportError req sem e => simp [hatt] at h; rw [← h.2.1]
    | response req sem res => simp [key req sem res hatt, hno req sem res hatt]
  · intro req sem res hatt h401 url2 req2 hreq
    have hnone : c1.sessionCookie = none := by simp [key req sem res hatt, h401]
    rw [hnone] at hreq
    rw [createGetRequest_ok hreq]
    rfl

/-- C1, at a concrete input: a client holding a cookie receives a 401. -/
theorem doGet_sessionCookie_witness :
    sampleClient.sessionCookie = some ⟨"JSESSIONID", "abc"⟩ ∧
    sampleClient.doGet (sampleEnv (fun _ => .ok unauthorizedResponse) true)
        (sampleEnv (fun _ => .ok unauthorizedResponse) true).jsonDecode World.empty
        Context.Background spacePath spaceResponse.new =
      .returned (some (.api ⟨spacePath, 401, "401 Unauthorized", ""⟩))
        ({ sampleClient with sessionCookie := none }, sampleLog sampleRequest 1,
          spaceResponse.new) ∧
    ({ sampleClient with sessionCookie := none } : client).sessionCookie = none :=
  ⟨rfl, by decide,
    (doGet_sessionCookie (sampleEnv (fun _ => .ok unauthorizedResponse) true)
      (sampleEnv (fun _ => .ok unauthorizedResponse) true).jsonDecode sampleClient World.empty
      Context.Background spacePath spaceResponse.new
      (some (.api ⟨spacePath, 401, "401 Unauthorized", ""⟩))
      { sampleClient with sessionCookie := none } (sampleLog sampleRequest 1)
      spaceResponse.new (by decide)).1 sampleRequest ⟨1, 1⟩ unauthorizedResponse
      (by decide) (by decide)⟩

/-- C2: whenever the transport hands `doGet` a response whose status is outside
[200,300) or is 204, `doGet` returns an `APIError` with that status code and
status text and leaves the decode target as it was; and `doGet` returns no
error only when the transport answered with a status in [200,300) other than
204 and decoding the body succeeded. -/
theorem doGet_status_classification {V : Type} (env : Env)
    (decode : String → V → V × Option StdError) (c : client) (w : World) (ctx : Context)
    (url : String) (v : V) :
    (∀ req sem res, c.attempt env w ctx url = .response req sem res →
      (res.StatusCode < 200 ∨ 300 ≤ res.StatusCode ∨ res.StatusCode = 204) →
      ∃ e c1 w1, c.doGet env decode w ctx url v = .returned (some (.api e)) (c1, w1, v) ∧
        e.StatusCode = res.StatusCode ∧ e.Title = res.Status) ∧
    (∀ c1 w1 v1, c.doGet env decode w ctx url v = .returned none (c1, w1, v1) →
      ∃ req sem res, c.attempt env w ctx url = .response req sem res ∧
        200 ≤ res.StatusCode ∧ res.StatusCode < 300 ∧ res.StatusCode ≠ 204 ∧
        decode res.Body v = (v1, none)) := by
  constructor
  · intro req sem res hatt hs
    obtain ⟨h1, h2⟩ := classify_api_of_bad_status decode { c with semaphore := sem } url res v hs
    rw [doGet_eq]
    simp only [hatt]
    rw [h1, h2]
    exact ⟨_, _, _, rfl, rfl, rfl⟩
  · intro c1 w1 v1 h
    rw [doGet_eq] at h
    cases hatt : c.attempt env w ctx url with
    | buildError e => simp [hatt] at h
    | waiting => simp [hatt] at h
    | cancelled e => simp [hatt] at h
    | transportError req sem e => simp [hatt] at h
    | response req sem res =>
      simp only [hatt, Res.returned.injEq, Prod.mk.injEq] at h
      obtain ⟨hnone, -, -, hv⟩ := h
      obtain ⟨h1, h2, h3, h4⟩ := classify_none decode _ url res v hnone
      rw [hv] at h4
      exact ⟨req, sem, res, rfl, h1, h2, h3, h4⟩

/-- C2, at a concrete input: the transport answers 500. -/
theorem doGet_status_classification_witness :
    ∃ e c1 w1,
      sampleClient.doGet (sampleEnv (fun _ => .ok serverErrorResponse) true)
          (sampleEnv (fun _ => .ok serverErrorResponse) true).jsonDecode World.empty
          Context.Background spacePath spaceResponse.new =
        .returned (some (.api e)) (c1, w1, spaceResponse.new) ∧
      e.StatusCode = 500 ∧ e.Title = "500 Internal Server Error" :=
  (doGet_status_classification (sampleEnv (fun _ => .ok serverErrorResponse) true)
    (sampleEnv (fun _ => .ok serverErrorResponse) true).jsonDecode sampleClient World.empty
    Context.Background spacePath spaceResponse.new).1 sampleRequest ⟨1, 1⟩
    serverErrorResponse (by decide) (by decide)

/-- C3: a call of `doGet` that returns leaves the semaphore holding as many
slots as when it was called: a call that took a slot made exactly one send and
one receive, a call that took none made neither; and the only way not to
return is to wait at the gate, before any slot is taken. -/
theorem doGet_gate_balance {V : Type} (env : Env)
    (decode : String → V → V × Option StdError) (c : client) (w : World) (ctx : Context)
    (url : String) (v : V) :
    match c.doGet env decode w ctx url v with
    | .returned _ (c1, w1, _) =>
      c1.semaphore = c.semaphore ∧
      (w1.sends, w1.recvs) =
        if (c.attempt env w ctx url).acquired then (w.sends + 1, w.recvs + 1)
        else (w.sends, w.recvs)
    | .blocked => c.attempt env w ctx url = .waiting
    | .panicked => False := by
  rw [doGet_eq]
  cases hatt : c.attempt env w ctx url with
  | buildError e => simp [Attempt.acquired]
  | waiting => simp
  | cancelled e => simp [Attempt.acquired]
  | transportError req sem e => simp [Attempt.acquired]
  | response req sem res => simp [Attempt.acquired]

/-- C4, refuted as stated: with a free slot and an already cancelled context the
`select` may take the send case.  The call then takes a slot and goes through
`httpClient.Do`: with a transport that honours the context it returns the
transport's error after one call, one send and one receive; with a transport
that ignores the context it even returns no error. -/
theorem doGet_cancelled_free_slot_counterexample :
    cancelledCtx.Err = some ⟨"context canceled"⟩ ∧
    sampleClient.semaphore = ⟨0, 1⟩ ∧
    sampleClient.doGet (cancelAwareEnv true) (cancelAwareEnv true).jsonDecode World.empty
        cancelledCtx spacePath spaceResponse.new =
      .returned
        (some (.std ⟨"Get http://confluence.example.org/rest/api/space: context canceled"⟩))
        (sampleClient, sampleLog (sampleRequest.WithContext cancelledCtx) 0,
          spaceResponse.new) ∧
    sampleClient.doGet (sampleEnv (fun _ => .ok okResponse) true)
        (sampleEnv (fun _ => .ok okResponse) true).jsonDecode World.empty cancelledCtx
        spacePath spaceResponse.new =
      .returned none
        (sampleClient, sampleLog (sampleRequest.WithContext cancelledCtx) 1,
          ⟨sampleSpaces⟩) := by
  decide

/-- C4, amended: when the context is already cancelled as `doGet` reaches the
`select`, and the gate is full or the runtime takes the `ctx.Done()` case, `doGet`
returns `ctx.Err()` with the client and the log untouched (no transport call, no
slot taken); when a slot is free and the runtime takes the send case, the call
takes the slot, calls the transport once and gives the slot back. -/
theorem doGet_cancelled_at_gate {V : Type} (env : Env)
    (decode : String → V → V × Option StdError) (c : client) (w : World) (ctx : Context)
    (url : String) (v : V) (req : Request) (e : StdError)
    (hreq : createGetRequest env (c.baseURL ++ url) c.username c.password c.sessionCookie
      = .ok req)
    (hctx : ctx.Err = some e) :
    ((c.semaphore.canSend = false ∨ env.selectSend = false) →
      c.doGet env decode w ctx url v = .returned (some (.std e)) (c, w, v)) ∧
    (c.semaphore.canSend = true → env.selectSend = true →
      ∃ err c1 w1 v1, c.doGet env decode w ctx url v = .returned err (c1, w1, v1) ∧
        w1.calls = w.calls ++ [req.WithContext ctx] ∧ w1.sends = w.sends + 1 ∧
        w1.recvs = w.recvs + 1 ∧ c1.semaphore = c.semaphore) := by
  constructor
  · intro hpick
    have hsel : selectGate env c.semaphore ctx = .done e := by
      unfold selectGate
      rcases hpick with hp | hp
      · simp [hp, hctx]
      · cases hcs : c.semaphore.canSend <;> simp [hp, hctx]
    simp [client.doGet, client.attempt, hreq, hsel]
  · intro hfree hpick
    have hsel : selectGate env c.semaphore ctx = .sent c.semaphore.send := by
      simp [selectGate, hfree, hctx, hpick]
    rw [doGet_eq]
    cases hrt : env.roundTrip w.calls.length (req.WithContext ctx) with
    | error e2 =>
      simp only [client.attempt, hreq, hsel, hrt]
      exact ⟨_, _, _, _, rfl, rfl, rfl, rfl, rfl⟩
    | ok res =>
      simp only [client.attempt, hreq, hsel, hrt]
      exact ⟨_, _, _, _, rfl, rfl, rfl, rfl, rfl⟩

/-- C4 amended, at a concrete input: a free slot, but the runtime takes the
`ctx.Done()` case. -/
theorem doGet_cancelled_at_gate_witness :
    sampleClient.doGet (sampleEnv (fun _ => .ok okResponse) false)
        (sampleEnv (fun _ => .ok okResponse) false).jsonDecode World.empty cancelledCtx
        spacePath spaceResponse.new =
      .returned (some (.std ⟨"context canceled"⟩))
        (sampleClient, World.empty, spaceResponse.new) :=
  (doGet_cancelled_at_gate (sampleEnv (fun _ => .ok okResponse) false)
    (sampleEnv (fun _ => .ok okResponse) false).jsonDecode sampleClient World.empty
    cancelledCtx spacePath spaceResponse.new sampleRequest ⟨"context canceled"⟩
    rfl rfl).1 (Or.inr rfl)

/-- C7, refuted as stated: the request goes to the base URL followed by the
path, the `APIError` carries the path alone. -/
theorem doGet_APIError_URL_counterexample :
    sampleClient.doGet (sampleEnv (fun _ => .ok serverErrorResponse) true)
        (sampleEnv (fun _ => .ok serverErrorResponse) true).jsonDecode World.empty
        Context.Background "/rest/api/space" spaceResponse.new =
      .returned (some (.api ⟨"/rest/api/space", 500, "500 Internal Server Error", ""⟩))
        (sampleClient, sampleLog sampleRequest 1, spaceResponse.new) ∧
    sampleRequest.URL = "http://confluence.example.org/rest/api/space" ∧
    "/rest/api/space" ≠ sampleRequest.URL := by
  decide

/-- C7, amended: every `APIError` returned by `doGet` comes from a response of
the transport to the request issued to the base URL followed by the path; its
`URL` field is the path argument of `doGet` alone, its status code and title are
the status code and status text of that response, its description is empty. -/
theorem doGet_APIError_fields {V : Type} (env : Env)
    (decode : String → V → V × Option StdError) (c : client) (w : World) (ctx : Context)
    (url : String) (v : V) (e : APIError) (c1 : client) (w1 : World) (v1 : V)
    (h : c.doGet env decode w ctx url v = .returned (some (.api e)) (c1, w1, v1)) :
    ∃ req sem res, c.attempt env w ctx url = .response req sem res ∧
      req.URL = c.baseURL ++ url ∧ e.URL = url ∧
      e.StatusCode = res.StatusCode ∧ e.Title = res.Status ∧ e.Description = "" := by
  rw [doGet_eq] at h
  cases hatt : c.attempt env w ctx url with
  | buildError e => simp [hatt] at h
  | waiting => simp [hatt] at h
  | cancelled e => simp [hatt] at h
  | transportError req sem e => simp [hatt] at h
  | response req sem res =>
    simp only [hatt, Res.returned.injEq, Prod.mk.injEq] at h
    have he := classify_api decode _ url res v e h.1
    obtain ⟨req0, hreq, hreq2, -, -⟩ := attempt_response hatt
    have hURL : req.URL = c.baseURL ++ url := by
      rw [hreq2, createGetRequest_ok hreq]
      rfl
    subst he
    exact ⟨req, sem, res, rfl, hURL, rfl, rfl, rfl, rfl⟩

/-- C7 amended, at a concrete input: the transport answers 500. -/
theorem doGet_APIError_fields_witness :
    ∃ req sem res,
      sampleClient.attempt (sampleEnv (fun _ => .ok serverErrorResponse) true) World.empty
          Context.Background spacePath = .response req sem res ∧
      req.URL = sampleClient.baseURL ++ spacePath ∧
      (⟨spacePath, 500, "500 Internal Server Error", ""⟩ : APIError).URL = spacePath ∧
      (500 : Int) = res.StatusCode ∧ "500 Internal Server Error" = res.Status ∧
      "" = "" :=
  doGet_APIError_fields (sampleEnv (fun _ => .ok serverErrorResponse) true)
    (sampleEnv (fun _ => .ok serverErrorResponse) true).jsonDecode sampleClient World.empty
    Context.Background spacePath spaceResponse.new
    ⟨spacePath, 500, "500 Internal Server Error", ""⟩ sampleClient (sampleLog sampleRequest 1)
    spaceResponse.new (by decide)

/-! ## The gate under concurrent calls -/

theorem countP_set_add (p : PC → Bool) (l : List PC) (i : Nat) (old new : PC)
    (h : l[i]? = some old) :
    (l.set i new).countP p + (if p old then 1 else 0)
      = l.countP p + (if p new then 1 else 0) := by
  induction l generalizing i with
  | nil => simp at h
  | cons x xs ih =>
    cases i with
    | zero =>
      simp at h
      subst h
      simp only [List.set_cons_zero, List.countP_cons]
      omega
    | succ j =>
      simp at h
      have := ih j h
      simp only [List.set_cons_succ, List.countP_cons]
      omega

/-- The gate invariant: the buffered length of the semaphore is the number of
calls past the gate, and it does not exceed the capacity. -/
theorem Sys.step_invariant (s s1 : Sys) (i : Nat) (a : Action)
    (hstep : s.step i a = some s1)
    (hinv : s.sem.len = s.pastGate ∧ s.sem.len ≤ s.sem.cap) :
    (s1.sem.len = s1.pastGate ∧ s1.sem.len ≤ s1.sem.cap) ∧ s1.sem.cap = s.sem.cap := by
  obtain ⟨hlen, hcap⟩ := hinv
  unfold Sys.step at hstep
  unfold Sys.pastGate at hlen ⊢
  split at hstep
  · next hpc =>
    simp at hstep; subst hstep
    have := countP_set_add PC.pastGate s.pcs i .building .atGate hpc
    simp [PC.pastGate] at this ⊢
    omega
  · next hpc =>
    simp at hstep; subst hstep
    have := countP_set_add PC.pastGate s.pcs i .building .returned hpc
    simp [PC.pastGate] at this ⊢
    omega
  · next hpc =>
    split_ifs at hstep with hfree
    simp at hstep; subst hstep
    have := countP_set_add PC.pastGate s.pcs i .atGate .inFlight hpc
    simp [PC.pastGate, Chan.send, Chan.canSend] at this hfree ⊢
    omega
  · next hpc =>
    simp at hstep; subst hstep
    have := countP_set_add PC.pastGate s.pcs i .atGate .returned hpc
    simp [PC.pastGate] at this ⊢
    omega
  · next hpc =>
    simp at hstep; subst hstep
    have := countP_set_add PC.pastGate s.pcs i .inFlight .responded hpc
    simp [PC.pastGate] at this ⊢
    omega
  · next hpc =>
    simp at hstep; subst hstep
    have := countP_set_add PC.pastGate s.pcs i .inFlight .failed hpc
    simp [PC.pastGate] at this ⊢
    omega
  · next hpc =>
    have := countP_set_add PC.pastGate s.pcs i .failed .returned hpc
    unfold Chan.recv at hstep
    split_ifs at hstep with h0
    simp at hstep; subst hstep
    simp [PC.pastGate] at this ⊢
    omega
  · next hpc =>
    have := countP_set_add PC.pastGate s.pcs i .responded .returned hpc
    unfold Chan.recv at hstep
    split_ifs at hstep with h0
    simp at hstep; subst hstep
    simp [PC.pastGate] at this ⊢
    omega
  · simp at hstep

theorem Sys.run_invariant (sched : List (Nat × Action)) (s s1 : Sys)
    (hrun : s.run sched = some s1)
    (hinv : s.sem.len = s.pastGate ∧ s.sem.len ≤ s.sem.cap) :
    (s1.sem.len = s1.pastGate ∧ s1.sem.len ≤ s1.sem.cap) ∧ s1.sem.cap = s.sem.cap := by
  induction sched generalizing s with
  | nil =>
    simp [Sys.run] at hrun
    subst hrun
    exact ⟨hinv, rfl⟩
  | cons x rest ih =>
    obtain ⟨i, a⟩ := x
    unfold Sys.run at hrun
    cases hstep : s.step i a with
    | none => simp [hstep] at hrun
    | some s2 =>
      simp only [hstep] at hrun
      obtain ⟨hinv2, hcap2⟩ := Sys.step_invariant s s2 i a hstep hinv
      obtain ⟨hinv1, hcap1⟩ := ih s2 hrun hinv2
      exact ⟨hinv1, hcap1.trans hcap2⟩

theorem newClient_some {url username password : String} {N : Int} {c : client}
    (h : newClient url username password N = some c) :
    0 ≤ N ∧ c = ⟨url, username, password, none, ⟨0, N.toNat⟩⟩ := by
  unfold newClient Chan.make at h
  split_ifs at h with hneg
  simp at h
  exact ⟨by omega, h.symm⟩

/-- C5: on a client built with capacity `N ≥ 1`, after any interleaving of the
steps of `M` concurrent calls of `doGet`, the number of calls that are past the
gate and have not yet released their slot is at most `N`. -/
theorem doGet_concurrency_bound (url username password : String) (N : Int) (c : client)
    (M : Nat) (sched : List (Nat × Action)) (s : Sys)
    (hN : 1 ≤ N)
    (hc : newClient url username password N = some c)
    (hrun : (Sys.start c M).run sched = some s) :
    (s.pastGate : Int) ≤ N := by
  obtain ⟨_, hcl⟩ := newClient_some hc
  subst hcl
  have hinit : (Sys.start ⟨url, username, password, none, ⟨0, N.toNat⟩⟩ M).sem.len =
      (Sys.start ⟨url, username, password, none, ⟨0, N.toNat⟩⟩ M).pastGate ∧
      (Sys.start ⟨url, username, password, none, ⟨0, N.toNat⟩⟩ M).sem.len ≤
      (Sys.start ⟨url, username, password, none, ⟨0, N.toNat⟩⟩ M).sem.cap := by
    simp [Sys.start, Sys.pastGate, List.countP_replicate, PC.pastGate]
  obtain ⟨⟨h1, h2⟩, h3⟩ := Sys.run_invariant sched _ s hrun hinit
  simp only [Sys.start] at h3
  omega

/-- C5, at a concrete input: capacity 2, three calls, two of them past the gate
and the third one unable to pass. -/
theorem doGet_concurrency_bound_witness :
    (Sys.start ⟨"http://confluence.example.org", "", "", none, ⟨0, 2⟩⟩ 3).run
        [(0, .build true), (1, .build true), (2, .build true), (0, .acquire), (1, .acquire)]
      = some ⟨⟨2, 2⟩, [.inFlight, .inFlight, .atGate]⟩ ∧
    Sys.step ⟨⟨2, 2⟩, [.inFlight, .inFlight, .atGate]⟩ 2 .acquire = none ∧
    ((Sys.pastGate ⟨⟨2, 2⟩, [.inFlight, .inFlight, .atGate]⟩ : Nat) : Int) ≤ 2 :=
  ⟨by decide, by decide,
    doGet_concurrency_bound "http://confluence.example.org" "" "" 2
      ⟨"http://confluence.example.org", "", "", none, ⟨0, 2⟩⟩ 3
      [(0, .build true), (1, .build true), (2, .build true), (0, .acquire), (1, .acquire)]
      ⟨⟨2, 2⟩, [.inFlight, .inFlight, .atGate]⟩ (by decide) (by decide) (by decide)⟩

/-! ## Session bootstrap -/

theorem scanCookies_eq (c : client) (cookies : List Cookie) :
    scanCookies c cookies =
      match sessionCookieOf cookies with
      | some cookie => { c with sessionCookie := some cookie }
      | none => c := by
  induction cookies with
  | nil => rfl
  | cons x xs ih =>
    unfold scanCookies sessionCookieOf
    by_cases hx : stringsContains x.Name "JSESSIONID" = true
    · simp [hx]
    · simp only [hx, if_false, Bool.false_eq_true]
      rw [ih]
      simp [sessionCookieOf, List.find?, hx]

theorem sessionCookieOf_some {cookies : List Cookie} {cookie : Cookie}
    (h : sessionCookieOf cookies = some cookie) :
    ∃ before after, cookies = before ++ cookie :: after ∧
      "JSESSIONID".data <:+: cookie.Name.data ∧
      ∀ x ∈ before, ¬ "JSESSIONID".data <:+: x.Name.data := by
  unfold sessionCookieOf at h
  obtain ⟨hp, before, after, hsplit, hbefore⟩ := List.find?_eq_some.mp h
  refine ⟨before, after, hsplit, (stringsContains_iff _ _).mp hp, ?_⟩
  intro x hx hin
  have := hbefore x hx
  rw [(stringsContains_iff _ _).mpr hin] at this
  simp at this

theorem sessionCookieOf_none (cookies : List Cookie) :
    sessionCookieOf cookies = none ↔
      ∀ x ∈ cookies, ¬ "JSESSIONID".data <:+: x.Name.data := by
  unfold sessionCookieOf
  rw [List.find?_eq_none]
  constructor
  · intro h x hx hin
    exact h x hx ((stringsContains_iff _ _).mpr hin)
  · intro h x hx hc
    exact h x hx ((stringsContains_iff _ _).mp hc)

theorem doGet_returns {V : Type} (env : Env) (decode : String → V → V × Option StdError)
    (c : client) (w : World) (url : String) (v : V)
    (hfree : c.semaphore.canSend = true) :
    ∃ err c1 w1 v1,
      c.doGet env decode w Context.Background url v = .returned err (c1, w1, v1) ∧
      c1.semaphore = c.semaphore ∧
      (c1.sessionCookie = c.sessionCookie ∨ c1.sessionCookie = none) := by
  rw [doGet_eq]
  cases hatt : c.attempt env w Context.Background url with
  | buildError e => exact ⟨_, _, _, _, rfl, rfl, Or.inl rfl⟩
  | waiting =>
    have := (attempt_waiting hatt).2
    rw [hfree] at this
    cases this
  | cancelled e =>
    have := (attempt_cancelled hatt).1
    simp [Context.Background] at this
  | transportError req sem e => exact ⟨_, _, _, _, rfl, rfl, Or.inl rfl⟩
  | response req sem res =>
    refine ⟨_, _, _, _, rfl, rfl, ?_⟩
    simp only [classify_sessionCookie]
    split_ifs
    · exact Or.inr rfl
    · exact Or.inl rfl

/-- C8: on a freshly built client, once the bootstrap request is answered,
`init` runs the warm-up fetch of the spaces endpoint on a client whose session
cookie is `sessionCookieOf` the answer's cookies, that is the first cookie in
response order whose name has `JSESSIONID` as a substring, or nil when no
cookie name has it; no error arises from its absence: `init` ends exactly as
the warm-up fetch ends, and with at least one slot the fetch returns, so `init`
returns its error. -/
theorem init_session_cookie (env : Env) (url username password : String) (N : Int)
    (c : client) (w : World) (req : Request) (res : Response)
    (hc : newClient url username password N = some c)
    (hreq : NewRequest env "GET" url = .ok req)
    (hres : env.roundTrip w.calls.length
      (if username ≠ "" ∧ password ≠ "" then req.SetBasicAuth username password else req)
        = .ok res) :
    (∀ cookie, sessionCookieOf res.Cookies = some cookie →
      ∃ before after, res.Cookies = before ++ cookie :: after ∧
        "JSESSIONID".data <:+: cookie.Name.data ∧
        ∀ x ∈ before, ¬ "JSESSIONID".data <:+: x.Name.data) ∧
    (sessionCookieOf res.Cookies = none ↔
      ∀ x ∈ res.Cookies, ¬ "JSESSIONID".data <:+: x.Name.data) ∧
    scanCookies c res.Cookies = { c with sessionCookie := sessionCookieOf res.Cookies } ∧
    c.init env w =
      (match ({ c with sessionCookie := sessionCookieOf res.Cookies } : client).doGet env
          env.jsonDecode
          { w with calls := w.calls ++
              [if username ≠ "" ∧ password ≠ "" then req.SetBasicAuth username password
               else req] }
          Context.Background spacePath spaceResponse.new with
        | .returned err (c2, w2, _) => .returned err (c2, { w2 with closes := w2.closes + 1 })
        | .blocked => .blocked
        | .panicked => .panicked) ∧
    (1 ≤ N → ∃ err c2 w2 v2,
      ({ c with sessionCookie := sessionCookieOf res.Cookies } : client).doGet env
          env.jsonDecode
          { w with calls := w.calls ++
              [if username ≠ "" ∧ password ≠ "" then req.SetBasicAuth username password
               else req] }
          Context.Background spacePath spaceResponse.new
        = .returned err (c2, w2, v2) ∧
      c.init env w = .returned err (c2, { w2 with closes := w2.closes + 1 })) := by
  obtain ⟨_, hcl⟩ := newClient_some hc
  subst hcl
  have hscan : scanCookies ⟨url, username, password, none, ⟨0, N.toNat⟩⟩ res.Cookies =
      ⟨url, username, password, sessionCookieOf res.Cookies, ⟨0, N.toNat⟩⟩ := by
    rw [scanCookies_eq]
    cases sessionCookieOf res.Cookies <;> rfl
  have hinit : client.init env ⟨url, username, password, none, ⟨0, N.toNat⟩⟩ w =
      (match (⟨url, username, password, sessionCookieOf res.Cookies, ⟨0, N.toNat⟩⟩ :
          client).doGet env env.jsonDecode
          { w with calls := w.calls ++
              [if username ≠ "" ∧ password ≠ "" then req.SetBasicAuth username password
               else req] }
          Context.Background spacePath spaceResponse.new with
        | .returned err (c2, w2, _) => .returned err (c2, { w2 with closes := w2.closes + 1 })
        | .blocked => .blocked
        | .panicked => .panicked) := by
    unfold client.init
    simp only [hreq, hres, hscan]
  refine ⟨fun _ h => sessionCookieOf_some h, sessionCookieOf_none _, hscan, hinit, ?_⟩
  intro hN
  have hfree : (⟨url, username, password, sessionCookieOf res.Cookies, ⟨0, N.toNat⟩⟩ :
      client).semaphore.canSend = true := by
    simp [Chan.canSend]
    omega
  obtain ⟨err, c2, w2, v2, hget, -, -⟩ := doGet_returns env env.jsonDecode _
    { w with calls := w.calls ++
        [if username ≠ "" ∧ password ≠ "" then req.SetBasicAuth username password else req] }
    spacePath spaceResponse.new hfree
  refine ⟨err, c2, w2, v2, hget, ?_⟩
  rw [hinit, hget]

/-! ## The gather cycle -/

theorem gatherEach_eq (env : Env) (c : Confluence) (u : URL)
    (hurl : env.urlParse c.URL = .ok u) (spaces : List space) (acc : Accumulator) :
    c.gatherEach env spaces acc = acc ++ spaces.map (expectedReport u) := by
  induction spaces generalizing acc with
  | nil => simp [Confluence.gatherEach]
  | cons s rest ih =>
    unfold Confluence.gatherEach Confluence.gatherSpaceData
    by_cases hname : s.Name = ""
    · simp only [hname, if_true]
      rw [ih]
      simp [expectedReport, hname]
    · simp only [hname, if_false, hurl]
      rw [ih]
      simp [expectedReport, hname, measurementSpace]

theorem doGet_frame {V : Type} {env : Env} {decode : String → V → V × Option StdError}
    {c : client} {w : World} {ctx : Context} {url : String} {v : V}
    {err : Option Error} {c1 : client} {w1 : World} {v1 : V}
    (h : c.doGet env decode w ctx url v = .returned err (c1, w1, v1)) :
    c1.semaphore = c.semaphore ∧ c1.baseURL = c.baseURL := by
  rw [doGet_eq] at h
  cases hatt : c.attempt env w ctx url with
  | buildError e => simp [hatt] at h; rw [← h.2.1]; exact ⟨rfl, rfl⟩
  | waiting => simp [hatt] at h
  | cancelled e => simp [hatt] at h; rw [← h.2.1]; exact ⟨rfl, rfl⟩
  | transportError req sem e => simp [hatt] at h; rw [← h.2.1]; exact ⟨rfl, rfl⟩
  | response req sem res =>
    simp only [hatt, Res.returned.injEq, Prod.mk.injEq] at h
    rw [← h.2.1]
    exact ⟨rfl, (classify_static decode _ url res v).1⟩

theorem scanCookies_frame (c : client) (cookies : List Cookie) :
    (scanCookies c cookies).semaphore = c.semaphore ∧
    (scanCookies c cookies).baseURL = c.baseURL := by
  rw [scanCookies_eq]
  cases sessionCookieOf cookies <;> exact ⟨rfl, rfl⟩

theorem init_frame {env : Env} {c : client} {w : World} {err : Option Error}
    {c1 : client} {w1 : World} (h : c.init env w = .returned err (c1, w1)) :
    c1.semaphore = c.semaphore ∧ c1.baseURL = c.baseURL := by
  unfold client.init at h
  cases hreq : NewRequest env "GET" c.baseURL with
  | error e =>
    simp only [hreq, Res.returned.injEq, Prod.mk.injEq] at h
    rw [← h.2.1]
    exact ⟨rfl, rfl⟩
  | ok req =>
    simp only [hreq] at h
    generalize (if c.username ≠ "" ∧ c.password ≠ "" then
      req.SetBasicAuth c.username c.password else req) = boot at h
    cases hrt : env.roundTrip w.calls.length boot with
    | error e =>
      simp only [hrt, Res.returned.injEq, Prod.mk.injEq] at h
      rw [← h.2.1]
      exact ⟨rfl, rfl⟩
    | ok res =>
      simp only [hrt] at h
      cases hget : (scanCookies c res.Cookies).doGet env env.jsonDecode
          { w with calls := w.calls ++ [boot] } Context.Background spacePath
          spaceResponse.new with
      | returned e2 s2 =>
        obtain ⟨c2, w2, v2⟩ := s2
        simp only [hget, Res.returned.injEq, Prod.mk.injEq] at h
        obtain ⟨h1, h2⟩ := doGet_frame hget
        obtain ⟨h3, h4⟩ := scanCookies_frame c res.Cookies
        rw [← h.2.1]
        exact ⟨h1.trans h3, h2.trans h4⟩
      | blocked => simp [hget] at h
      | panicked => simp [hget] at h

/-- What every later cycle relies on: a client is in place, it has a free slot,
and it talks to the configured URL. -/
theorem initializeClient_client {env : Env} {c : Confluence} {w : World}
    {err : Option Error} {c1 : Confluence} {w1 : World}
    (h : c.initializeClient env w = .returned err (c1, w1)) :
    c1.URL = c.URL ∧
      ∃ cl, c1.client = some cl ∧ cl.semaphore.canSend = true ∧ cl.baseURL = c1.URL := by
  unfold Confluence.initializeClient at h
  dsimp only at h
  generalize hN : (if c.MaxConnections ≤ 0 then { c with MaxConnections := 5 } else c)
    = cfg at h
  have hcfg : cfg.URL = c.URL ∧ 1 ≤ cfg.MaxConnections := by
    rw [← hN]
    split_ifs with h0
    · exact ⟨rfl, by simp⟩
    · exact ⟨rfl, by omega⟩
  cases hnew : newClient cfg.URL cfg.Username cfg.Password cfg.MaxConnections with
  | none => simp [hnew] at h
  | some cl =>
    simp only [hnew] at h
    obtain ⟨-, hcl⟩ := newClient_some hnew
    cases hinit : cl.init env w with
    | returned e2 s2 =>
      obtain ⟨cl1, w2⟩ := s2
      simp only [hinit, Res.returned.injEq, Prod.mk.injEq] at h
      obtain ⟨hsem, hbase⟩ := init_frame hinit
      rw [← h.2.1]
      refine ⟨hcfg.1, cl1, rfl, ?_, ?_⟩
      · rw [hsem, hcl]
        simp only [Chan.canSend, decide_eq_true_eq]
        omega
      · rw [hbase, hcl]
    | blocked => simp [hinit] at h
    | panicked => simp [hinit] at h

theorem ensureClient_URL {env : Env} {c : Confluence} {w : World} {err : Option Error}
    {c1 : Confluence} {w1 : World} (h : c.ensureClient env w = .returned err (c1, w1)) :
    c1.URL = c.URL := by
  unfold Confluence.ensureClient at h
  split at h
  · split at h
    · simp at h; rw [← h.2.1]
    · exact (initializeClient_client h).1
  · simp at h; rw [← h.2.1]

/-- C9: when the fetch of `gatherSpacesData` succeeds and the configured URL
parses, `Gather` returns no error and the accumulator receives, in the order of
the fetched list, one `AddFields("confluence_space", ...)` for each space with a
name and one `AddError` for each space without one; a space without a name
never stops the spaces after it. -/
theorem Gather_reports_each_space (env : Env) (c : Confluence) (w : World)
    (acc : Accumulator) (c1 : Confluence) (w1 : World) (cl : client)
    (spaceResp : spaceResponse) (cl1 : client) (w2 : World) (u : URL)
    (hE : c.ensureClient env w = .returned none (c1, w1))
    (hcl : c1.client = some cl)
    (hfetch : cl.getAllSpaces env w1 Context.Background
      = .returned (spaceResp, none) (cl1, w2))
    (hurl : env.urlParse c.URL = .ok u) :
    c.Gather env w acc =
      .returned none ({ c1 with client := some cl1 }, w2,
        acc ++ spaceResp.Results.map (expectedReport u)) := by
  have hurl1 : env.urlParse ({ c1 with client := some cl1 } : Confluence).URL = .ok u := by
    show env.urlParse c1.URL = .ok u
    rw [ensureClient_URL hE]
    exact hurl
  unfold Confluence.Gather Confluence.gatherSpacesData
  simp only [hE, hcl, hfetch]
  rw [gatherEach_eq env _ u hurl1]

theorem doGet_background {V : Type} (env : Env) (decode : String → V → V × Option StdError)
    (c : client) (w : World) (url : String) (v : V)
    (hfree : c.semaphore.canSend = true) :
    ∃ err c1 w1 v1,
      c.doGet env decode w Context.Background url v = .returned err (c1, w1, v1) ∧
      c1.semaphore = c.semaphore ∧ c1.baseURL = c.baseURL ∧
      (c1.sessionCookie = c.sessionCookie ∨ c1.sessionCookie = none) ∧
      (w1.calls = w.calls ∨
        ∃ req, w1.calls = w.calls ++ [req] ∧ req.URL = c.baseURL ++ url ∧
          req.hasHeader "Accept" "application/json" = true) := by
  obtain ⟨err, c1, w1, v1, hget, -, hck⟩ := doGet_returns env decode c w url v hfree
  obtain ⟨hsem, hbase⟩ := doGet_frame hget
  refine ⟨err, c1, w1, v1, hget, hsem, hbase, hck, ?_⟩
  rw [doGet_eq] at hget
  cases hatt : c.attempt env w Context.Background url with
  | buildError e => simp [hatt] at hget; rw [← hget.2.2.1]; exact Or.inl rfl
  | waiting => simp [hatt] at hget
  | cancelled e => simp [hatt] at hget; rw [← hget.2.2.1]; exact Or.inl rfl
  | transportError req sem e =>
    simp only [hatt, Res.returned.injEq, Prod.mk.injEq] at hget
    obtain ⟨req0, hreq, hreq2, -, -⟩ := attempt_transportError hatt
    rw [← hget.2.2.1]
    refine Or.inr ⟨req, rfl, ?_, ?_⟩
    · rw [hreq2, createGetRequest_ok hreq]; rfl
    · rw [hreq2, createGetRequest_ok hreq]; rfl
  | response req sem res =>
    simp only [hatt, Res.returned.injEq, Prod.mk.injEq] at hget
    obtain ⟨req0, hreq, hreq2, -, -⟩ := attempt_response hatt
    rw [← hget.2.2.1]
    refine Or.inr ⟨req, rfl, ?_, ?_⟩
    · rw [hreq2, createGetRequest_ok hreq]; rfl
    · rw [hreq2, createGetRequest_ok hreq]; rfl

/-- One cycle on a plugin that has a client with a free slot: lines 73-81 do
nothing, the spaces fetch returns, and the plugin is again in such a state. -/
theorem Gather_with_client (env : Env) (c : Confluence) (w : World) (acc : Accumulator)
    (cl : client) (hcl : c.client = some cl) (hfree : cl.semaphore.canSend = true)
    (hbase : cl.baseURL = c.URL) :
    ∃ c4 w4 acc4 cl4,
      c.ensureClient env w = .returned none (c, w) ∧
      c.gatherSpacesData env w acc = .returned () (c4, w4, acc4) ∧
      c.Gather env w acc = .returned none (c4, w4, acc4) ∧
      c4.URL = c.URL ∧ c4.client = some cl4 ∧ cl4.semaphore.canSend = true ∧
      cl4.baseURL = c4.URL ∧
      (cl4.sessionCookie = cl.sessionCookie ∨ cl4.sessionCookie = none) ∧
      (w4.calls = w.calls ∨
        ∃ req, w4.calls = w.calls ++ [req] ∧ req.URL = c.URL ++ spacePath ∧
          req.hasHeader "Accept" "application/json" = true) := by
  obtain ⟨err, c1, w1, v1, hget, hsem, hb, hck, hcalls⟩ :=
    doGet_background env env.jsonDecode cl w spacePath spaceResponse.new hfree
  have hE : c.ensureClient env w = .returned none (c, w) := by
    simp [Confluence.ensureClient, hcl]
  rw [hbase] at hcalls
  cases err with
  | none =>
    have hS : c.gatherSpacesData env w acc = .returned ()
        ({ c with client := some c1 }, w1,
          Confluence.gatherEach env { c with client := some c1 } v1.Results acc) := by
      simp [Confluence.gatherSpacesData, hcl, client.getAllSpaces, hget]
    refine ⟨_, _, _, c1, hE, hS, ?_, rfl, rfl, by rw [hsem]; exact hfree,
      by rw [hb]; exact hbase, hck, hcalls⟩
    simp [Confluence.Gather, hE, hS]
  | some e =>
    have hS : c.gatherSpacesData env w acc = .returned ()
        ({ c with client := some c1 }, w1, acc ++ [.AddError e]) := by
      simp [Confluence.gatherSpacesData, hcl, client.getAllSpaces, hget]
    refine ⟨_, _, _, c1, hE, hS, ?_, rfl, rfl, by rw [hsem]; exact hfree,
      by rw [hb]; exact hbase, hck, hcalls⟩
    simp [Confluence.Gather, hE, hS]

theorem cycles_with_client (env : Env) (n : Nat) (c : Confluence) (w : World)
    (acc : Accumulator) (cl : client) (hcl : c.client = some cl)
    (hfree : cl.semaphore.canSend = true) (hbase : cl.baseURL = c.URL) :
    ∃ c3 w3 acc3 cl3,
      Confluence.cycles env n c w acc = .returned () (c3, w3, acc3) ∧
      c3.URL = c.URL ∧ c3.client = some cl3 ∧ cl3.semaphore.canSend = true ∧
      cl3.baseURL = c3.URL := by
  induction n generalizing c w acc cl with
  | zero => exact ⟨c, w, acc, cl, rfl, rfl, hcl, hfree, hbase⟩
  | succ k ih =>
    obtain ⟨c4, w4, acc4, cl4, -, -, hG, hU, hcl4, hfree4, hbase4, -, -⟩ :=
      Gather_with_client env c w acc cl hcl hfree hbase
    obtain ⟨c3, w3, acc3, cl3, hcyc, hU3, hcl3, hfree3, hbase3⟩ :=
      ih c4 w4 acc4 cl4 hcl4 hfree4 hbase4
    refine ⟨c3, w3, acc3, cl3, ?_, hU3.trans hU, hcl3, hfree3, hbase3⟩
    simp [Confluence.cycles, hG, hcyc]

/-- C10: when `initialize` fails on a plugin without a client, `Gather` returns
that error and reports nothing, yet the client is set; so in every later cycle
`Gather` finds the client, skips lines 73-81 (no bootstrap request, no new
session cookie) and goes straight to the spaces fetch, whose only possible
request is the one to the spaces endpoint. -/
theorem Gather_after_failed_init (env : Env) (c : Confluence) (w : World)
    (acc : Accumulator) (err : Error) (c1 : Confluence) (w1 : World)
    (hnil : c.client = none)
    (htls : env.tlsConfig = none)
    (hfail : c.initializeClient env w = .returned (some err) (c1, w1)) :
    c.Gather env w acc = .returned (some err) (c1, w1, acc) ∧
    c1.client.isSome = true ∧
    ∀ (n : Nat) (w2 : World) (acc2 : Accumulator),
      ∃ c3 w3 acc3 cl3 c4 w4 acc4 cl4,
        Confluence.cycles env n c1 w2 acc2 = .returned () (c3, w3, acc3) ∧
        c3.client = some cl3 ∧
        c3.ensureClient env w3 = .returned none (c3, w3) ∧
        c3.gatherSpacesData env w3 acc3 = .returned () (c4, w4, acc4) ∧
        c3.Gather env w3 acc3 = .returned none (c4, w4, acc4) ∧
        c4.client = some cl4 ∧
        (cl4.sessionCookie = cl3.sessionCookie ∨ cl4.sessionCookie = none) ∧
        (w4.calls = w3.calls ∨
          ∃ req, w4.calls = w3.calls ++ [req] ∧ req.URL = c.URL ++ spacePath ∧
            req.hasHeader "Accept" "application/json" = true) := by
  obtain ⟨hURL, cl1, hcl1, hfree1, hbase1⟩ := initializeClient_client hfail
  refine ⟨?_, by simp [hcl1], ?_⟩
  · simp [Confluence.Gather, Confluence.ensureClient, hnil, Confluence.newHTTPClient, htls,
      hfail]
  · intro n w2 acc2
    obtain ⟨c3, w3, acc3, cl3, hcyc, hU3, hcl3, hfree3, hbase3⟩ :=
      cycles_with_client env n c1 w2 acc2 cl1 hcl1 hfree1 hbase1
    obtain ⟨c4, w4, acc4, cl4, hE, hS, hG, -, hcl4, -, -, hck, hcalls⟩ :=
      Gather_with_client env c3 w3 acc3 cl3 hcl3 hfree3 hbase3
    rw [hU3, hURL] at hcalls
    exact ⟨c3, w3, acc3, cl3, c4, w4, acc4, cl4, hcyc, hcl3, hE, hS, hG, hcl4, hck, hcalls⟩

/-- Every sequential path of `doGet` is a run of the step machine for one call,
and that run leaves the semaphore as `doGet` does. -/
theorem attempt_steps_run (env : Env) (c : client) (w : World) (ctx : Context)
    (url : String) :
    Sys.run ⟨c.semaphore, [.building]⟩
        ((c.attempt env w ctx url).steps.map (fun a => (0, a))) =
      some ⟨c.semaphore,
        [if c.attempt env w ctx url = .waiting then .atGate else .returned]⟩ := by
  cases hatt : c.attempt env w ctx url with
  | buildError e => simp [Attempt.steps, Sys.run, Sys.step]
  | waiting => simp [Attempt.steps, Sys.run, Sys.step]
  | cancelled e => simp [Attempt.steps, Sys.run, Sys.step]
  | transportError req sem e =>
    obtain ⟨req0, -, -, hsel, -⟩ := attempt_transportError hatt
    obtain ⟨-, hfree, -⟩ := selectGate_sent hsel
    simp [Attempt.steps, Sys.run, Sys.step, hfree, Chan.recv_send]
  | response req sem res =>
    obtain ⟨req0, -, -, hsel, -⟩ := attempt_response hatt
    obtain ⟨-, hfree, -⟩ := selectGate_sent hsel
    simp [Attempt.steps, Sys.run, Sys.step, hfree, Chan.recv_send]

/-- C8, at a concrete input: of three cookies the second is the first whose name
contains `JSESSIONID`; the warm-up fetch then carries it and succeeds. -/
theorem init_session_cookie_witness :
    sessionCookieOf bootstrapResponse.Cookies = some ⟨"JSESSIONID", "abc"⟩ ∧
    client.init (sampleEnv (answersAfter (.ok bootstrapResponse)) true)
        ⟨"http://confluence.example.org", "admin", "secret", none, ⟨0, 5⟩⟩ World.empty =
      .returned none
        (⟨"http://confluence.example.org", "admin", "secret", some ⟨"JSESSIONID", "abc"⟩,
            ⟨0, 5⟩⟩,
          ⟨[bootstrapRequest, sampleRequest], 1, 1, 2⟩) ∧
    scanCookies ⟨"http://confluence.example.org", "admin", "secret", none, ⟨0, 5⟩⟩
        bootstrapResponse.Cookies =
      ⟨"http://confluence.example.org", "admin", "secret",
        sessionCookieOf bootstrapResponse.Cookies, ⟨0, 5⟩⟩ :=
  ⟨by decide, by decide,
    (init_session_cookie (sampleEnv (answersAfter (.ok bootstrapResponse)) true)
      "http://confluence.example.org" "admin" "secret" 5
      ⟨"http://confluence.example.org", "admin", "secret", none, ⟨0, 5⟩⟩ World.empty
      ⟨"GET", "http://confluence.example.org", none, [], [], Context.Background⟩
      bootstrapResponse (by decide) rfl rfl).2.2.1⟩

/-- C9, at a concrete input: a space without a name followed by a named one. -/
theorem Gather_reports_each_space_witness :
    Confluence.Gather (sampleEnv (fun _ => .ok okResponse) true)
        { samplePlugin with client := some sampleClient } World.empty [] =
      .returned none
        ({ samplePlugin with client := some sampleClient }, sampleLog sampleRequest 1,
          [] ++ (spaceResponse.mk sampleSpaces).Results.map
            (expectedReport ⟨"confluence.example.org", "8090"⟩)) :=
  Gather_reports_each_space (sampleEnv (fun _ => .ok okResponse) true)
    { samplePlugin with client := some sampleClient } World.empty []
    { samplePlugin with client := some sampleClient } World.empty sampleClient
    ⟨sampleSpaces⟩ sampleClient (sampleLog sampleRequest 1)
    ⟨"confluence.example.org", "8090"⟩ (by decide) rfl (by decide) rfl

/-- C10, at a concrete input: the bootstrap request is refused. -/
theorem Gather_after_failed_init_witness :
    Confluence.Gather (sampleEnv (answersAfter (.error ⟨"connection refused"⟩)) true)
        samplePlugin World.empty [] =
      .returned (some (.std ⟨"connection refused"⟩))
        ({ samplePlugin with
            MaxConnections := 5
            semaphore := some ⟨0, 0⟩
            client := some ⟨"http://confluence.example.org", "admin", "secret", none,
              ⟨0, 5⟩⟩ },
          ⟨[bootstrapRequest], 0, 0, 0⟩, []) :=
  (Gather_after_failed_init (sampleEnv (answersAfter (.error ⟨"connection refused"⟩)) true)
    samplePlugin World.empty [] (.std ⟨"connection refused"⟩)
    { samplePlugin with
        MaxConnections := 5
        semaphore := some ⟨0, 0⟩
        client := some ⟨"http://confluence.example.org", "admin", "secret", none, ⟨0, 5⟩⟩ }
    ⟨[bootstrapRequest], 0, 0, 0⟩ rfl rfl (by decide)).1

end confluence
